import Mathlib

/-!
Shallow embedding of the pizza-restaurant HTTP API (src/server/models.py and
src/server/app.py): three relational entities, their serialization shapes, and
the five request handlers, followed by theorems settling the specification
claims about them.

Modelling conventions:
* A request-body value (Python object decoded from JSON) is a `PyVal`; Python's
  `isinstance(value, int)` is true for both `int` and `bool` (bool subclasses
  int), which `PyVal.isinstance_int` mirrors.
* The backing store is the default SQLite database. flask_sqlalchemy does not
  switch SQLite's foreign-key pragma on, so inserting a RestaurantPizza whose
  restaurant_id or pizza_id references no existing row succeeds at the storage
  layer; the embedding's `create_restaurant_pizza` therefore performs no
  referential check, exactly like the handler.
* `db.session.delete(restaurant)` deletes the single row fetched by primary
  key; the ORM cascade rule on `Restaurant.restaurant_pizzas` then deletes the
  child rows, i.e. the rows whose restaurant_id equals the deleted id.
* An unparseable request body makes `request.get_json()` raise before the
  handler's try block, so that failure is modelled as `Response.unhandled`
  with the store untouched.
-/

namespace PizzaApp

/-- A Python value arriving in a decoded JSON request body, as far as the
price validator can distinguish them. -/
inductive PyVal where
  | vint (n : Int)
  | vbool (b : Bool)
  | vstr (s : String)
  | vfloat (mantissa : Int) (exponent : Int)
  | vnone
  deriving DecidableEq

/-- Python `isinstance(value, int)`: true for int and for bool, since bool is
a subclass of int. -/
def PyVal.isinstance_int : PyVal → Bool
  | .vint _ => true
  | .vbool _ => true
  | _ => false

/-- The integer a Python int-like value stands for when compared or stored
(`True` is 1, `False` is 0). Unused for non-int values. -/
def PyVal.toInt : PyVal → Int
  | .vint n => n
  | .vbool b => if b then 1 else 0
  | _ => 0

/-- models.py line 84-92: the `@validates("price")` hook. It runs while the
`RestaurantPizza(...)` constructor assigns the price attribute, before any
session/persistence step. -/
def validate_price (value : PyVal) : Except String PyVal :=
  if value = PyVal.vnone then Except.error "price must be present"
  else if value.isinstance_int = false then Except.error "price must be an integer"
  else if value.toInt < 1 ∨ value.toInt > 30 then
    Except.error "price must be between 1 and 30"
  else Except.ok value

/-- models.py Restaurant: id (primary key), name, address. -/
structure Restaurant where
  id : Int
  name : String
  address : String
  deriving DecidableEq

/-- models.py Pizza: id (primary key), name, ingredients. -/
structure Pizza where
  id : Int
  name : String
  ingredients : String
  deriving DecidableEq

/-- models.py RestaurantPizza: id (primary key), price (Integer NOT NULL),
restaurant_id and pizza_id (Integer foreign-key columns, declared without
`nullable=False`, hence nullable). -/
structure RestaurantPizza where
  id : Int
  price : Int
  restaurant_id : Option Int
  pizza_id : Option Int
  deriving DecidableEq

/-- The relational store: the three tables. -/
structure Store where
  restaurants : List Restaurant
  pizzas : List Pizza
  restaurant_pizzas : List RestaurantPizza
  deriving DecidableEq

/-- JSON documents as produced by the serializer and jsonify. -/
inductive Json where
  | null
  | jint (n : Int)
  | jstr (s : String)
  | jarr (items : List Json)
  | jobj (fields : List (String × Json))

/-- Top-level keys of a JSON object (empty for non-objects). -/
def Json.keys : Json → List String
  | .jobj fields => fields.map Prod.fst
  | _ => []

/-- Whether a JSON object carries the given top-level key. -/
def Json.hasKey (j : Json) (k : String) : Bool :=
  (j.keys).contains k

/-- Value stored under a top-level key, `Json.null` when absent or when the
document is not an object. -/
def Json.getField (j : Json) (k : String) : Json :=
  match j with
  | .jobj fields =>
    match fields.find? (fun f => f.fst == k) with
    | some f => f.snd
    | none => Json.null
  | _ => Json.null

/-- Whether the document is a JSON array all of whose items satisfy p. -/
def Json.allItems (j : Json) (p : Json → Bool) : Bool :=
  match j with
  | .jarr items => items.all p
  | _ => false

/-- A nullable integer column serialized to JSON. -/
def jsonOfOptionInt : Option Int → Json
  | none => Json.null
  | some n => Json.jint n

/-- app.py line 30: `r.to_dict(only=("id", "name", "address"))`. -/
def Restaurant.to_dict_only (r : Restaurant) : Json :=
  .jobj [("id", .jint r.id), ("name", .jstr r.name), ("address", .jstr r.address)]

/-- app.py line 58: `p.to_dict(only=("id", "name", "ingredients"))`. -/
def Pizza.to_dict_only (p : Pizza) : Json :=
  .jobj [("id", .jint p.id), ("name", .jstr p.name), ("ingredients", .jstr p.ingredients)]

/-- A Restaurant serialized with its `restaurant_pizzas` collection excluded,
as happens when it is nested under a RestaurantPizza (rule
`-restaurant.restaurant_pizzas` in RestaurantPizza.serialize_rules). -/
def Restaurant.to_dict_no_children (r : Restaurant) : Json :=
  .jobj [("id", .jint r.id), ("name", .jstr r.name), ("address", .jstr r.address)]

/-- A Pizza serialized with its `restaurant_pizzas` collection excluded,
as happens when it is nested under a RestaurantPizza (rule
`-pizza.restaurant_pizzas` in RestaurantPizza.serialize_rules). -/
def Pizza.to_dict_no_children (p : Pizza) : Json :=
  .jobj [("id", .jint p.id), ("name", .jstr p.name), ("ingredients", .jstr p.ingredients)]

/-- The row the `pizza` relationship of a RestaurantPizza resolves to. -/
def Store.findPizzaOf (s : Store) (pid : Option Int) : Option Pizza :=
  match pid with
  | none => none
  | some i => s.pizzas.find? (fun p => p.id == i)

/-- The row the `restaurant` relationship of a RestaurantPizza resolves to. -/
def Store.findRestaurantOf (s : Store) (rid : Option Int) : Option Restaurant :=
  match rid with
  | none => none
  | some i => s.restaurants.find? (fun r => r.id == i)

/-- A RestaurantPizza nested inside a serialized Restaurant: Restaurant's rule
`-restaurant_pizzas.restaurant` removes the back-reference to the parent, and
RestaurantPizza's own rule `-pizza.restaurant_pizzas` strips the nested
pizza's collection. -/
def RestaurantPizza.nested_in_restaurant (s : Store) (rp : RestaurantPizza) : Json :=
  .jobj [("id", .jint rp.id), ("price", .jint rp.price),
         ("restaurant_id", jsonOfOptionInt rp.restaurant_id),
         ("pizza_id", jsonOfOptionInt rp.pizza_id),
         ("pizza",
           match s.findPizzaOf rp.pizza_id with
           | some p => p.to_dict_no_children
           | none => Json.null)]

/-- A RestaurantPizza nested inside a serialized Pizza: Pizza's rule
`-restaurant_pizzas.pizza` removes the back-reference to the parent, and
RestaurantPizza's own rule `-restaurant.restaurant_pizzas` strips the nested
restaurant's collection. -/
def RestaurantPizza.nested_in_pizza (s : Store) (rp : RestaurantPizza) : Json :=
  .jobj [("id", .jint rp.id), ("price", .jint rp.price),
         ("restaurant_id", jsonOfOptionInt rp.restaurant_id),
         ("pizza_id", jsonOfOptionInt rp.pizza_id),
         ("restaurant",
           match s.findRestaurantOf rp.restaurant_id with
           | some r => r.to_dict_no_children
           | none => Json.null)]

/-- Full serialization of a Restaurant (`restaurant.to_dict()` in app.py
line 39): scalar columns plus the restaurant_pizzas collection, each child
rendered without the circular `restaurant` back-reference. -/
def Restaurant.to_dict (s : Store) (r : Restaurant) : Json :=
  .jobj [("id", .jint r.id), ("name", .jstr r.name), ("address", .jstr r.address),
         ("restaurant_pizzas",
           .jarr ((s.restaurant_pizzas.filter
                     (fun rp => rp.restaurant_id == some r.id)).map
                   (RestaurantPizza.nested_in_restaurant s)))]

/-- Full serialization of a Pizza under Pizza.serialize_rules: scalar columns
plus the restaurant_pizzas collection, each child rendered without the
circular `pizza` back-reference. -/
def Pizza.to_dict (s : Store) (p : Pizza) : Json :=
  .jobj [("id", .jint p.id), ("name", .jstr p.name), ("ingredients", .jstr p.ingredients),
         ("restaurant_pizzas",
           .jarr ((s.restaurant_pizzas.filter
                     (fun rp => rp.pizza_id == some p.id)).map
                   (RestaurantPizza.nested_in_pizza s)))]

/-- Full serialization of a RestaurantPizza (`new_rp.to_dict()` in app.py
line 77): scalar columns plus the nested pizza and restaurant, each stripped
of its restaurant_pizzas back-reference by RestaurantPizza.serialize_rules. -/
def RestaurantPizza.to_dict (s : Store) (rp : RestaurantPizza) : Json :=
  .jobj [("id", .jint rp.id), ("price", .jint rp.price),
         ("restaurant_id", jsonOfOptionInt rp.restaurant_id),
         ("pizza_id", jsonOfOptionInt rp.pizza_id),
         ("pizza",
           match s.findPizzaOf rp.pizza_id with
           | some p => p.to_dict_no_children
           | none => Json.null),
         ("restaurant",
           match s.findRestaurantOf rp.restaurant_id with
           | some r => r.to_dict_no_children
           | none => Json.null)]

/-- An HTTP response: a JSON body with a status, an empty body with a status
(the 204 delete), or an exception escaping the handler, which the framework
turns into a generic error page rather than a handler-shaped JSON body. -/
inductive Response where
  | json (status : Nat) (body : Json)
  | empty (status : Nat)
  | unhandled

/-- app.py line 37: the 404 body. -/
def restaurant_not_found : Json :=
  .jobj [("error", .jstr "Restaurant not found")]

/-- app.py line 77: the uniform 400 validation body. -/
def validation_errors_body : Json :=
  .jobj [("errors", .jarr [.jstr "validation errors"])]

/-- app.py get_restaurants (lines 27-30): 200 with the partial serialization
of every Restaurant row. -/
def get_restaurants (s : Store) : Response :=
  .json 200 (.jarr (s.restaurants.map Restaurant.to_dict_only))

/-- app.py get_pizzas (lines 55-58): 200 with the partial serialization of
every Pizza row. -/
def get_pizzas (s : Store) : Response :=
  .json 200 (.jarr (s.pizzas.map Pizza.to_dict_only))

/-- `db.session.get(Restaurant, id)`: primary-key lookup. -/
def Store.getRestaurant (s : Store) (i : Int) : Option Restaurant :=
  s.restaurants.find? (fun r => r.id == i)

/-- app.py get_restaurant (lines 34-39): full serialization of the row, or
404 with the fixed error body. -/
def get_restaurant (s : Store) (i : Int) : Response :=
  match s.getRestaurant i with
  | none => .json 404 restaurant_not_found
  | some r => .json 200 (r.to_dict s)

/-- app.py delete_restaurant (lines 43-51): 404 when the id is absent;
otherwise `db.session.delete` removes the fetched row and the ORM cascade
(`cascade="all, delete-orphan"` on Restaurant.restaurant_pizzas) removes the
RestaurantPizza rows whose restaurant_id is that id, then 204 empty. -/
def delete_restaurant (s : Store) (i : Int) : Response × Store :=
  match s.getRestaurant i with
  | none => (.json 404 restaurant_not_found, s)
  | some _ =>
    (.empty 204,
     { s with
        restaurants := s.restaurants.eraseP (fun r => r.id == i),
        restaurant_pizzas :=
          s.restaurant_pizzas.filter (fun rp => rp.restaurant_id != some i) })

/-- A decoded JSON request body for POST /restaurant_pizzas. `none` in a
field means the key is absent from the body (so `data[...]` raises KeyError
inside the handler's try block); in the two id fields, `some none` is an
explicit JSON null. -/
structure RpBody where
  price : Option PyVal
  pizza_id : Option (Option Int)
  restaurant_id : Option (Option Int)
  deriving DecidableEq

/-- Primary key SQLite assigns to the next inserted restaurant_pizzas row. -/
def next_rp_id (s : Store) : Int :=
  (s.restaurant_pizzas.map RestaurantPizza.id).foldr max 0 + 1

/-- app.py create_restaurant_pizza (lines 62-77). `none` for the whole body
is an unparseable JSON payload: `request.get_json()` raises before the try
block, so nothing maps that failure to the 400 validation shape. Inside the
try, the three `data[...]` lookups run first (KeyError on a missing key),
then the constructor runs `validate_price`; any exception is caught and
answered with the uniform 400 body and the session rolled no row in. On
success the row is added with whatever ids the body carried - the handler
checks neither presence in the parent tables nor non-nullness, and the
SQLite store (foreign-key pragma off) accepts the insert - and the full
serialization is returned with 201. -/
def create_restaurant_pizza (s : Store) (body : Option RpBody) : Response × Store :=
  match body with
  | none => (.unhandled, s)
  | some data =>
    match data.price with
    | none => (.json 400 validation_errors_body, s)
    | some pv =>
      match data.pizza_id with
      | none => (.json 400 validation_errors_body, s)
      | some pid =>
        match data.restaurant_id with
        | none => (.json 400 validation_errors_body, s)
        | some rid =>
          match validate_price pv with
          | .error _ => (.json 400 validation_errors_body, s)
          | .ok v =>
            let new_rp : RestaurantPizza :=
              { id := next_rp_id s, price := v.toInt,
                restaurant_id := rid, pizza_id := pid }
            let s' : Store :=
              { s with restaurant_pizzas := s.restaurant_pizzas ++ [new_rp] }
            (.json 201 (new_rp.to_dict s'), s')

/-- HTTP status of a response, none for an exception escaping the handler. -/
def Response.statusCode : Response → Option Nat
  | .json status _ => some status
  | .empty status => some status
  | .unhandled => none

/-- A concrete seeded store: one restaurant with id 1 and one pizza with
id 1, no associations yet. -/
def sample_store : Store :=
  { restaurants := [{ id := 1, name := "Karens Pizza Shack", address := "address1" }],
    pizzas := [{ id := 1, name := "Emma", ingredients := "Dough, Tomato Sauce, Cheese" }],
    restaurant_pizzas := [] }

/-- An in-range Python int passes the price validator unchanged. -/
theorem validate_price_int_ok (p : Int) (h1 : 1 ≤ p) (h2 : p ≤ 30) :
    validate_price (PyVal.vint p) = Except.ok (PyVal.vint p) := by
  simp [validate_price, PyVal.isinstance_int, PyVal.toInt]
  omega

/-- Any value that is None, not a Python int, or integer-valued outside
[1, 30] makes the price validator raise. -/
theorem validate_price_error (pv : PyVal)
    (h : pv = PyVal.vnone ∨ pv.isinstance_int = false ∨ pv.toInt < 1 ∨ pv.toInt > 30) :
    ∃ msg, validate_price pv = Except.error msg := by
  by_cases h0 : pv = PyVal.vnone
  · exact ⟨"price must be present", by simp [validate_price, h0]⟩
  · by_cases h1 : pv.isinstance_int = false
    · exact ⟨"price must be an integer", by simp [validate_price, h0, h1]⟩
    · have h2 : pv.toInt < 1 ∨ pv.toInt > 30 := by
        rcases h with h | h | h | h
        · exact absurd h h0
        · exact absurd h h1
        · exact Or.inl h
        · exact Or.inr h
      exact ⟨"price must be between 1 and 30", by simp [validate_price, h0, h1, h2]⟩

/-- C1: for every integer price p with 1 ≤ p ≤ 30, a POST /restaurant_pizzas
request carrying that price and pizza_id/restaurant_id of existing rows
succeeds with status 201 and the persisted RestaurantPizza's price equals p:
the new row appended to the restaurant_pizzas table carries price p, and the
rest of the store is untouched. -/
theorem c1_post_valid_price_stores_price (s : Store) (p pid rid : Int)
    (hp1 : 1 ≤ p) (hp2 : p ≤ 30)
    (hpid : pid ∈ s.pizzas.map Pizza.id)
    (hrid : rid ∈ s.restaurants.map Restaurant.id) :
    ∃ body, create_restaurant_pizza s
        (some { price := some (PyVal.vint p),
                pizza_id := some (some pid),
                restaurant_id := some (some rid) })
      = (Response.json 201 body,
         { s with restaurant_pizzas := s.restaurant_pizzas ++
             [{ id := next_rp_id s, price := p,
                restaurant_id := some rid, pizza_id := some pid }] }) := by
  refine ⟨RestaurantPizza.to_dict
      { s with restaurant_pizzas := s.restaurant_pizzas ++
          [{ id := next_rp_id s, price := p,
             restaurant_id := some rid, pizza_id := some pid }] }
      { id := next_rp_id s, price := p,
        restaurant_id := some rid, pizza_id := some pid }, ?_⟩
  simp [create_restaurant_pizza, validate_price_int_ok p hp1 hp2, PyVal.toInt]

/-- Closed instance of C1: price 5 against the seeded store with pizza 1 and
restaurant 1 existing. -/
theorem c1_post_valid_price_stores_price_witness :
    ∃ body, create_restaurant_pizza sample_store
        (some { price := some (PyVal.vint 5),
                pizza_id := some (some 1),
                restaurant_id := some (some 1) })
      = (Response.json 201 body,
         { sample_store with restaurant_pizzas := sample_store.restaurant_pizzas ++
             [{ id := next_rp_id sample_store, price := 5,
                restaurant_id := some 1, pizza_id := some 1 }] }) :=
  c1_post_valid_price_stores_price sample_store 5 1 1
    (by decide) (by decide) (by decide) (by decide)

/-- C2: for every price that is missing, null, not a Python int (a string or
a float; a bool is a Python int and so not covered, see the bool case in the
C9 theorem), or integer-valued outside [1, 30], POST /restaurant_pizzas
answers 400 with exactly the uniform validation body, and the store is
returned unchanged: the validator raises while the entity is being
constructed, before the row could be appended. -/
theorem c2_post_invalid_price_rejected (s : Store) (data : RpBody)
    (h : data.price = none ∨ ∃ pv, data.price = some pv ∧
          (pv = PyVal.vnone ∨ pv.isinstance_int = false ∨
           pv.toInt < 1 ∨ pv.toInt > 30)) :
    create_restaurant_pizza s (some data)
      = (Response.json 400 validation_errors_body, s) := by
  rcases h with h | ⟨pv, hpv, hbad⟩
  · simp [create_restaurant_pizza, h]
  · obtain ⟨msg, herr⟩ := validate_price_error pv hbad
    rcases data with ⟨dp, dpid, drid⟩
    simp only at hpv
    subst hpv
    rcases dpid with _ | pid
    · simp [create_restaurant_pizza]
    · rcases drid with _ | rid
      · simp [create_restaurant_pizza]
      · simp [create_restaurant_pizza, herr]

/-- Closed instance of C2: price 35 is rejected with the 400 body and the
seeded store is unchanged. -/
theorem c2_post_invalid_price_rejected_witness :
    create_restaurant_pizza sample_store
        (some { price := some (PyVal.vint 35),
                pizza_id := some (some 1),
                restaurant_id := some (some 1) })
      = (Response.json 400 validation_errors_body, sample_store) :=
  c2_post_invalid_price_rejected sample_store
    { price := some (PyVal.vint 35),
      pizza_id := some (some 1),
      restaurant_id := some (some 1) }
    (Or.inr ⟨PyVal.vint 35, rfl, by decide⟩)

/-- C8: an unparseable request body makes `request.get_json()` raise before
the handler's try block, so the failure is never mapped to the 400
validation-errors shape: the response is the unhandled-exception outcome and
the store is unchanged (no row persisted). -/
theorem c8_malformed_json_unhandled (s : Store) :
    create_restaurant_pizza s none = (Response.unhandled, s) := by
  rfl

/-- C9: the JSON booleans supplied as price follow Python's bool-is-int
semantics. `true` passes `isinstance(value, int)` and equals 1, inside
[1, 30], so the request succeeds with 201 and the persisted price is 1;
`false` equals 0, so the range check rejects it with the 400 validation body
and the store is unchanged. -/
theorem c9_bool_price_python_semantics (s : Store) (pid rid : Int)
    (hpid : pid ∈ s.pizzas.map Pizza.id)
    (hrid : rid ∈ s.restaurants.map Restaurant.id) :
    (∃ body, create_restaurant_pizza s
        (some { price := some (PyVal.vbool true),
                pizza_id := some (some pid),
                restaurant_id := some (some rid) })
      = (Response.json 201 body,
         { s with restaurant_pizzas := s.restaurant_pizzas ++
             [{ id := next_rp_id s, price := 1,
                restaurant_id := some rid, pizza_id := some pid }] }))
    ∧ create_restaurant_pizza s
        (some { price := some (PyVal.vbool false),
                pizza_id := some (some pid),
                restaurant_id := some (some rid) })
      = (Response.json 400 validation_errors_body, s) := by
  constructor
  · refine ⟨RestaurantPizza.to_dict
        { s with restaurant_pizzas := s.restaurant_pizzas ++
            [{ id := next_rp_id s, price := 1,
               restaurant_id := some rid, pizza_id := some pid }] }
        { id := next_rp_id s, price := 1,
          restaurant_id := some rid, pizza_id := some pid }, ?_⟩
    simp [create_restaurant_pizza, validate_price, PyVal.isinstance_int, PyVal.toInt]
  · simp [create_restaurant_pizza, validate_price, PyVal.isinstance_int, PyVal.toInt]

/-- Closed instance of C9 at the seeded store. -/
theorem c9_bool_price_python_semantics_witness :
    (∃ body, create_restaurant_pizza sample_store
        (some { price := some (PyVal.vbool true),
                pizza_id := some (some 1),
                restaurant_id := some (some 1) })
      = (Response.json 201 body,
         { sample_store with restaurant_pizzas := sample_store.restaurant_pizzas ++
             [{ id := next_rp_id sample_store, price := 1,
                restaurant_id := some 1, pizza_id := some 1 }] }))
    ∧ create_restaurant_pizza sample_store
        (some { price := some (PyVal.vbool false),
                pizza_id := some (some 1),
                restaurant_id := some (some 1) })
      = (Response.json 400 validation_errors_body, sample_store) :=
  c9_bool_price_python_semantics sample_store 1 1 (by decide) (by decide)

/-- C10: with a valid price, an explicit JSON null in restaurant_id or in
pizza_id is accepted: the columns carry no NOT NULL constraint and the
handler checks nothing about them, so the row is persisted with the null
foreign key and the response is 201, not 400. -/
theorem c10_null_fk_accepted (s : Store) (p other_id : Int)
    (hp1 : 1 ≤ p) (hp2 : p ≤ 30) :
    (∃ body, create_restaurant_pizza s
        (some { price := some (PyVal.vint p),
                pizza_id := some (some other_id),
                restaurant_id := some none })
      = (Response.json 201 body,
         { s with restaurant_pizzas := s.restaurant_pizzas ++
             [{ id := next_rp_id s, price := p,
                restaurant_id := none, pizza_id := some other_id }] }))
    ∧ (∃ body, create_restaurant_pizza s
        (some { price := some (PyVal.vint p),
                pizza_id := some none,
                restaurant_id := some (some other_id) })
      = (Response.json 201 body,
         { s with restaurant_pizzas := s.restaurant_pizzas ++
             [{ id := next_rp_id s, price := p,
                restaurant_id := some other_id, pizza_id := none }] })) := by
  constructor
  · refine ⟨RestaurantPizza.to_dict
        { s with restaurant_pizzas := s.restaurant_pizzas ++
            [{ id := next_rp_id s, price := p,
               restaurant_id := none, pizza_id := some other_id }] }
        { id := next_rp_id s, price := p,
          restaurant_id := none, pizza_id := some other_id }, ?_⟩
    simp [create_restaurant_pizza, validate_price_int_ok p hp1 hp2, PyVal.toInt]
  · refine ⟨RestaurantPizza.to_dict
        { s with restaurant_pizzas := s.restaurant_pizzas ++
            [{ id := next_rp_id s, price := p,
               restaurant_id := some other_id, pizza_id := none }] }
        { id := next_rp_id s, price := p,
          restaurant_id := some other_id, pizza_id := none }, ?_⟩
    simp [create_restaurant_pizza, validate_price_int_ok p hp1 hp2, PyVal.toInt]

/-- Closed instance of C10: price 5 with restaurant_id null, and with
pizza_id null, both against the seeded store. -/
theorem c10_null_fk_accepted_witness :
    (∃ body, create_restaurant_pizza sample_store
        (some { price := some (PyVal.vint 5),
                pizza_id := some (some 1),
                restaurant_id := some none })
      = (Response.json 201 body,
         { sample_store with restaurant_pizzas := sample_store.restaurant_pizzas ++
             [{ id := next_rp_id sample_store, price := 5,
                restaurant_id := none, pizza_id := some 1 }] }))
    ∧ (∃ body, create_restaurant_pizza sample_store
        (some { price := some (PyVal.vint 5),
                pizza_id := some none,
                restaurant_id := some (some 1) })
      = (Response.json 201 body,
         { sample_store with restaurant_pizzas := sample_store.restaurant_pizzas ++
             [{ id := next_rp_id sample_store, price := 5,
                restaurant_id := some 1, pizza_id := none }] })) :=
  c10_null_fk_accepted sample_store 5 1 (by decide) (by decide)

/-- C3 fails on the code: a POST whose restaurant_id (999) references no
existing row is not rejected. Against the seeded store - whose only
restaurant has id 1, as the last conjunct certifies - the handler answers
201 and persists a RestaurantPizza row with restaurant_id 999: neither the
handler nor the default SQLite store (foreign-key pragma off) checks
referential existence. -/
theorem c3_counterexample_dangling_fk_persisted :
    ((create_restaurant_pizza sample_store
        (some { price := some (PyVal.vint 5),
                pizza_id := some (some 1),
                restaurant_id := some (some 999) })).1).statusCode = some 201
    ∧ (create_restaurant_pizza sample_store
        (some { price := some (PyVal.vint 5),
                pizza_id := some (some 1),
                restaurant_id := some (some 999) })).2.restaurant_pizzas
      = [{ id := 1, price := 5, restaurant_id := some 999, pizza_id := some 1 }]
    ∧ sample_store.restaurants.all (fun r => r.id != 999) = true := by
  exact ⟨rfl, rfl, by decide⟩

/-- C3 amended: POST /restaurant_pizzas performs no referential check at all.
For any valid price and any restaurant_id/pizza_id values - existing,
non-existent, or null - the request succeeds with 201 and the row is
persisted carrying exactly those foreign-key values. -/
theorem c3_amended_no_referential_check (s : Store) (p : Int)
    (pid rid : Option Int) (hp1 : 1 ≤ p) (hp2 : p ≤ 30) :
    ∃ body, create_restaurant_pizza s
        (some { price := some (PyVal.vint p),
                pizza_id := some pid,
                restaurant_id := some rid })
      = (Response.json 201 body,
         { s with restaurant_pizzas := s.restaurant_pizzas ++
             [{ id := next_rp_id s, price := p,
                restaurant_id := rid, pizza_id := pid }] }) := by
  refine ⟨RestaurantPizza.to_dict
      { s with restaurant_pizzas := s.restaurant_pizzas ++
          [{ id := next_rp_id s, price := p,
             restaurant_id := rid, pizza_id := pid }] }
      { id := next_rp_id s, price := p,
        restaurant_id := rid, pizza_id := pid }, ?_⟩
  simp [create_restaurant_pizza, validate_price_int_ok p hp1 hp2, PyVal.toInt]

/-- Closed instance of the amended C3: the dangling restaurant_id 999 is
accepted against the seeded store. -/
theorem c3_amended_no_referential_check_witness :
    ∃ body, create_restaurant_pizza sample_store
        (some { price := some (PyVal.vint 5),
                pizza_id := some (some 1),
                restaurant_id := some (some 999) })
      = (Response.json 201 body,
         { sample_store with restaurant_pizzas := sample_store.restaurant_pizzas ++
             [{ id := next_rp_id sample_store, price := 5,
                restaurant_id := some 999, pizza_id := some 1 }] }) :=
  c3_amended_no_referential_check sample_store 5 (some 1) (some 999)
    (by decide) (by decide)

/-- Deleting by primary key from a table whose ids are pairwise distinct
removes exactly the rows carrying that id. -/
theorem eraseP_id_eq_filter (l : List Restaurant) (i : Int)
    (h : l.Pairwise (fun a b => a.id ≠ b.id)) :
    l.eraseP (fun r => r.id == i) = l.filter (fun r => r.id != i) := by
  induction l with
  | nil => rfl
  | cons a t ih =>
    rcases List.pairwise_cons.mp h with ⟨ha, ht⟩
    by_cases hai : a.id = i
    · rw [List.eraseP_cons_of_pos (by simp [hai]),
          List.filter_cons_of_neg (by simp [hai])]
      symm
      rw [List.filter_eq_self]
      intro b hb
      have : a.id ≠ b.id := ha b hb
      simp only [bne_iff_ne, ne_eq]
      intro hbi
      exact this (by rw [hai, hbi])
    · rw [List.eraseP_cons_of_neg (by simp [hai]),
          List.filter_cons_of_pos (by simp [hai]), ih ht]

/-- A seeded store with two restaurants, one pizza, and one association row
per restaurant. -/
def sample_store_two : Store :=
  { restaurants := [{ id := 1, name := "Karens Pizza Shack", address := "address1" },
                    { id := 2, name := "Sanjays Pizza", address := "address2" }],
    pizzas := [{ id := 1, name := "Emma", ingredients := "Dough, Tomato Sauce, Cheese" }],
    restaurant_pizzas := [{ id := 1, price := 5, restaurant_id := some 1, pizza_id := some 1 },
                          { id := 2, price := 7, restaurant_id := some 2, pizza_id := some 1 }] }

/-- C4: deleting a Restaurant id that is present (ids being pairwise
distinct, as primary keys are) answers 204 with an empty body, removes that
restaurant and exactly the RestaurantPizza rows whose restaurant_id equals
it (the ORM cascade), and leaves the pizzas table, the other restaurants,
and the other association rows unchanged - which the two filter equations
state: the surviving rows are exactly the original rows whose id differs. -/
theorem c4_delete_restaurant_cascades (s : Store) (rid : Int)
    (hmem : rid ∈ s.restaurants.map Restaurant.id)
    (huniq : s.restaurants.Pairwise (fun a b => a.id ≠ b.id)) :
    (delete_restaurant s rid).1 = Response.empty 204
    ∧ (delete_restaurant s rid).2.restaurants
        = s.restaurants.filter (fun r => r.id != rid)
    ∧ (delete_restaurant s rid).2.pizzas = s.pizzas
    ∧ (delete_restaurant s rid).2.restaurant_pizzas
        = s.restaurant_pizzas.filter (fun rp => rp.restaurant_id != some rid) := by
  have hsome : (s.getRestaurant rid).isSome := by
    rw [Store.getRestaurant, List.find?_isSome]
    obtain ⟨r, hr, hid⟩ := List.mem_map.mp hmem
    exact ⟨r, hr, by simp [hid]⟩
  obtain ⟨r0, hr0⟩ := Option.isSome_iff_exists.mp hsome
  simp only [delete_restaurant, hr0]
  exact ⟨trivial, eraseP_id_eq_filter s.restaurants rid huniq, trivial, trivial⟩

/-- Closed instance of C4: deleting restaurant 1 from the two-restaurant
store keeps restaurant 2, its association row, and the pizza. -/
theorem c4_delete_restaurant_cascades_witness :
    (delete_restaurant sample_store_two 1).1 = Response.empty 204
    ∧ (delete_restaurant sample_store_two 1).2.restaurants
        = sample_store_two.restaurants.filter (fun r => r.id != 1)
    ∧ (delete_restaurant sample_store_two 1).2.pizzas = sample_store_two.pizzas
    ∧ (delete_restaurant sample_store_two 1).2.restaurant_pizzas
        = sample_store_two.restaurant_pizzas.filter
            (fun rp => rp.restaurant_id != some 1) :=
  c4_delete_restaurant_cascades sample_store_two 1 (by decide) (by decide)

/-- C5: for an id carried by no Restaurant row, GET /restaurants/id and
DELETE /restaurants/id both answer 404 with exactly the body
carrying the single field error = "Restaurant not found", and the
delete returns the store unchanged (the get reads only). -/
theorem c5_restaurant_not_found_404 (s : Store) (rid : Int)
    (h : ∀ r ∈ s.restaurants, r.id ≠ rid) :
    get_restaurant s rid = Response.json 404 restaurant_not_found
    ∧ delete_restaurant s rid = (Response.json 404 restaurant_not_found, s) := by
  have hnone : s.getRestaurant rid = none := by
    rw [Store.getRestaurant, List.find?_eq_none]
    intro r hr
    simp [h r hr]
  exact ⟨by simp [get_restaurant, hnone], by simp [delete_restaurant, hnone]⟩

/-- Closed instance of C5: id 2 is absent from the seeded store. -/
theorem c5_restaurant_not_found_404_witness :
    get_restaurant sample_store 2 = Response.json 404 restaurant_not_found
    ∧ delete_restaurant sample_store 2
        = (Response.json 404 restaurant_not_found, sample_store) :=
  c5_restaurant_not_found_404 sample_store 2 (by decide)

/-- C6: the serializer rules break every circular nesting. Each
RestaurantPizza nested inside a serialized Restaurant carries no
`restaurant` key; each one nested inside a serialized Pizza carries no
`pizza` key; the full Restaurant serialization (the GET /restaurants/id
body) and the full Pizza serialization contain only such stripped children
in their restaurant_pizzas arrays; and the full RestaurantPizza
serialization (the POST /restaurant_pizzas 201 body) nests its pizza and its
restaurant with their restaurant_pizzas back-references excluded. -/
theorem c6_serialization_breaks_recursion (s : Store) (rp : RestaurantPizza)
    (r : Restaurant) (p : Pizza) :
    (RestaurantPizza.nested_in_restaurant s rp).hasKey "restaurant" = false
    ∧ (RestaurantPizza.nested_in_pizza s rp).hasKey "pizza" = false
    ∧ ((Restaurant.to_dict s r).getField "restaurant_pizzas").allItems
        (fun j => !(j.hasKey "restaurant")) = true
    ∧ ((Pizza.to_dict s p).getField "restaurant_pizzas").allItems
        (fun j => !(j.hasKey "pizza")) = true
    ∧ ((RestaurantPizza.to_dict s rp).getField "pizza").hasKey
        "restaurant_pizzas" = false
    ∧ ((RestaurantPizza.to_dict s rp).getField "restaurant").hasKey
        "restaurant_pizzas" = false := by
  refine ⟨rfl, rfl, ?_, ?_, ?_, ?_⟩
  · show ((s.restaurant_pizzas.filter
        (fun x => x.restaurant_id == some r.id)).map
        (RestaurantPizza.nested_in_restaurant s)).all
        (fun j => !(j.hasKey "restaurant")) = true
    rw [List.all_eq_true]
    intro j hj
    obtain ⟨x, _, rfl⟩ := List.mem_map.mp hj
    rfl
  · show ((s.restaurant_pizzas.filter
        (fun x => x.pizza_id == some p.id)).map
        (RestaurantPizza.nested_in_pizza s)).all
        (fun j => !(j.hasKey "pizza")) = true
    rw [List.all_eq_true]
    intro j hj
    obtain ⟨x, _, rfl⟩ := List.mem_map.mp hj
    rfl
  · cases hp : s.findPizzaOf rp.pizza_id with
    | none =>
      simp only [RestaurantPizza.to_dict, hp]
      rfl
    | some q =>
      simp only [RestaurantPizza.to_dict, hp]
      rfl
  · cases hr : s.findRestaurantOf rp.restaurant_id with
    | none =>
      simp only [RestaurantPizza.to_dict, hr]
      rfl
    | some q =>
      simp only [RestaurantPizza.to_dict, hr]
      rfl

/-- C7: GET /restaurants answers 200 with the array of partial restaurant
serializations, every one of which carries exactly the keys id, name,
address; GET /pizzas answers 200 with the array of partial pizza
serializations, every one of which carries exactly the keys id, name,
ingredients - no nested associations in either list. -/
theorem c7_list_endpoints_partial_serialization (s : Store) :
    get_restaurants s
      = Response.json 200 (Json.jarr (s.restaurants.map Restaurant.to_dict_only))
    ∧ (∀ r : Restaurant, (Restaurant.to_dict_only r).keys = ["id", "name", "address"])
    ∧ get_pizzas s
      = Response.json 200 (Json.jarr (s.pizzas.map Pizza.to_dict_only))
    ∧ (∀ p : Pizza, (Pizza.to_dict_only p).keys = ["id", "name", "ingredients"]) :=
  ⟨rfl, fun _ => rfl, rfl, fun _ => rfl⟩

end PizzaApp
